import Mathlib

/-!
Verification of the neon dynamic borrow-tracking core
(`src/borrow/mod.rs`, `src/types/error.rs`,
`crates/neon-runtime/src/napi/error.rs`).

The per-address loan ledger (`context::internal::Ledger`, with operations
`try_borrow`, `try_borrow_mut`, `settle`, `settle_mut`) is not among the
provided source files; those operations are modelled from the spec
(sections 3 and 4.1).  Guard construction and release (`Ref::new`,
`RefMut::new`, the two `Drop` impls), the `Borrow`/`BorrowMut` panicking
wrappers, the `LoanError` display formatting, `convert_panics`, and the
`JsError` constructors are translated from the source files.
-/

namespace Neon

/-- Identity addresses are opaque values used only for lookup; we model
`*const c_void` as a natural number. -/
abbrev Addr := Nat

/-- Modelled from the spec: the per-address loan state of the ledger —
one of `Unborrowed`, `Shared(n)` (with n ≥ 1 in any reachable state),
or `Exclusive`. -/
inductive LoanState where
  | unborrowed : LoanState
  | shared (n : Nat) : LoanState
  | exclusive : LoanState
deriving DecidableEq, Repr

/-- `LoanError` from `src/borrow/mod.rs`: `Mutating(addr)` reports an
outstanding mutable loan, `Frozen(addr)` reports the address is frozen
against a new exclusive loan. -/
inductive LoanError where
  | mutating (a : Addr) : LoanError
  | frozen (a : Addr) : LoanError
deriving DecidableEq, Repr

/-- Modelled from the spec: the ledger maps every identity address to its
current loan state (absent addresses read as `Unborrowed`). -/
def Ledger := Addr → LoanState

/-- The ledger at scope creation: no outstanding loans. -/
def Ledger.empty : Ledger := fun _ => .unborrowed

/-- Point update of the ledger table at one address. -/
def Ledger.update (l : Ledger) (a : Addr) (s : LoanState) : Ledger :=
  fun x => if x = a then s else l x

/-- Modelled from the spec: `register_shared(addr)` (the ledger method
called `try_borrow`) succeeds if the state is `Unborrowed` or `Shared(n)`,
transitioning to `Shared(n+1)`; it fails with the conflicting-exclusive
error (`LoanError::Mutating`) if the state is `Exclusive`, leaving the
ledger unchanged.  The result pairs an optional error with the ledger
after the call. -/
def Ledger.tryBorrow (l : Ledger) (a : Addr) : Option LoanError × Ledger :=
  match l a with
  | .unborrowed => (none, l.update a (.shared 1))
  | .shared n => (none, l.update a (.shared (n + 1)))
  | .exclusive => (some (.mutating a), l)

/-- Modelled from the spec: `register_exclusive(addr)` (the ledger method
called `try_borrow_mut`) succeeds only if the state is `Unborrowed`,
transitioning to `Exclusive`; it fails with the frozen-against-exclusive
error (`LoanError::Frozen`) if the state is `Shared(n)` (n ≥ 1) or
`Exclusive`, leaving the ledger unchanged. -/
def Ledger.tryBorrowMut (l : Ledger) (a : Addr) : Option LoanError × Ledger :=
  match l a with
  | .unborrowed => (none, l.update a .exclusive)
  | .shared _ => (some (.frozen a), l)
  | .exclusive => (some (.frozen a), l)

/-- Modelled from the spec: `release_shared(addr)` (the ledger method
called `settle`) decrements `Shared(n)`, transitioning to `Unborrowed`
when the count reaches zero; calling it on an address not in `Shared`
state is a programming-invariant violation, modelled as leaving the
ledger unchanged. -/
def Ledger.settle (l : Ledger) (a : Addr) : Ledger :=
  match l a with
  | .shared 1 => l.update a .unborrowed
  | .shared (n + 2) => l.update a (.shared (n + 1))
  | _ => l

/-- Modelled from the spec: `release_exclusive(addr)` (the ledger method
called `settle_mut`) transitions `Exclusive` to `Unborrowed`; calling it
on any other state is a programming-invariant violation, modelled as
leaving the ledger unchanged. -/
def Ledger.settleMut (l : Ledger) (a : Addr) : Ledger :=
  match l a with
  | .exclusive => l.update a .unborrowed
  | _ => l

/-- A shared guard (`Ref<'a, T>` from `src/borrow/mod.rs`): it records the
identity address of the pointer it guards.  The `lock` back-reference is
the ledger being threaded through explicitly. -/
structure Ref where
  pointer : Addr
deriving DecidableEq, Repr

/-- An exclusive guard (`RefMut<'a, T>` from `src/borrow/mod.rs`). -/
structure RefMut where
  pointer : Addr
deriving DecidableEq, Repr

/-- `Ref::new` from `src/borrow/mod.rs`: forwards to `ledger.try_borrow`
on the pointer's address; on success returns the guard, on failure the
`?` operator propagates the loan error.  The second component is the
ledger after the call. -/
def Ref.new (l : Ledger) (a : Addr) : Except LoanError Ref × Ledger :=
  match l.tryBorrow a with
  | (some e, l') => (.error e, l')
  | (none, l') => (.ok ⟨a⟩, l')

/-- `Drop for Ref` from `src/borrow/mod.rs`: releases the guard's ledger
contribution via `ledger.settle` on the guard's address. -/
def Ref.drop (l : Ledger) (g : Ref) : Ledger :=
  l.settle g.pointer

/-- `RefMut::new` from `src/borrow/mod.rs`: forwards to
`ledger.try_borrow_mut` on the pointer's mutable address. -/
def RefMut.new (l : Ledger) (a : Addr) : Except LoanError RefMut × Ledger :=
  match l.tryBorrowMut a with
  | (some e, l') => (.error e, l')
  | (none, l') => (.ok ⟨a⟩, l')

/-- `Drop for RefMut` from `src/borrow/mod.rs`: releases via
`ledger.settle_mut` on the guard's address. -/
def RefMut.drop (l : Ledger) (g : RefMut) : Ledger :=
  l.settleMut g.pointer

/-- One ledger operation, for reasoning about reachable ledger states. -/
inductive LedgerOp where
  | regShared (a : Addr) : LedgerOp
  | regExclusive (a : Addr) : LedgerOp
  | relShared (a : Addr) : LedgerOp
  | relExclusive (a : Addr) : LedgerOp
deriving DecidableEq, Repr

/-- Apply one register/release operation to the ledger (registration
keeps the post-call ledger whether or not it succeeded). -/
def Ledger.step (l : Ledger) : LedgerOp → Ledger
  | .regShared a => (l.tryBorrow a).2
  | .regExclusive a => (l.tryBorrowMut a).2
  | .relShared a => l.settle a
  | .relExclusive a => l.settleMut a

/-- Run a sequence of ledger operations from a starting ledger. -/
def Ledger.run (l : Ledger) (ops : List LedgerOp) : Ledger :=
  ops.foldl Ledger.step l

/-- The Rust debug formatting of a raw pointer (`{:?}` on `*const c_void`):
`0x` followed by the lowercase hexadecimal digits of the address. -/
def fmtPtr (a : Addr) : String :=
  "0x" ++ String.mk (Nat.toDigits 16 a)

/-- `impl fmt::Display for LoanError` from `src/borrow/mod.rs`. -/
def LoanError.display : LoanError → String
  | .mutating p => "outstanding mutable loan exists for object at " ++ fmtPtr p
  | .frozen p => "object at " ++ fmtPtr p ++ " is frozen"

/-- The observable outcome of a call that may abort: either a returned
value or a panic carrying its message. -/
inductive CallResult (G : Type) where
  | ok (g : G) : CallResult G
  | panicked (msg : String) : CallResult G
deriving DecidableEq, Repr

/-- The default method `Borrow::borrow` from `src/borrow/mod.rs`: matches
the result of `try_borrow`; on `Ok(r)` returns the guard, on `Err(e)`
panics with the error's display text. -/
def Borrow.borrow (G : Type) (t : Except LoanError G) : CallResult G :=
  match t with
  | .ok r => .ok r
  | .error e => .panicked e.display

/-- The default method `BorrowMut::borrow_mut` from `src/borrow/mod.rs`:
identical dispatch on the result of `try_borrow_mut`. -/
def BorrowMut.borrowMut (G : Type) (t : Except LoanError G) : CallResult G :=
  match t with
  | .ok r => .ok r
  | .error e => .panicked e.display

/-- `result::Throw`, the unit marker that a JavaScript exception is
pending. -/
inductive Throw where
  | mk : Throw
deriving DecidableEq, Repr

/-- Total UTF-8 byte length of a character list. -/
def utf8Len : List Char → Nat
  | [] => 0
  | c :: cs => c.utf8Size + utf8Len cs

/-- Longest prefix of a character list whose UTF-8 encoding fits within
`limit` bytes. -/
def takeUtf8Bytes : Nat → List Char → List Char
  | _, [] => []
  | limit, c :: cs =>
    if c.utf8Size ≤ limit then c :: takeUtf8Bytes (limit - c.utf8Size) cs
    else []

/-- Modelled from the spec: `Utf8::truncate` (`types/utf8.rs` is not
among the source files) truncates a message to the wire limit of the
host's string representation, here the byte budget `limit`. -/
def truncateUtf8 (limit : Nat) (s : String) : String :=
  String.mk (takeUtf8Bytes limit s.data)

/-- Modelled from the spec: `Utf8::into_small` (`types/utf8.rs` is not
among the source files) yields the small host-string representation
exactly when the UTF-8 encoding does not exceed the small-string size
limit `limit`, and nothing otherwise. -/
def intoSmall (limit : Nat) (s : String) : Option String :=
  if utf8Len s.data ≤ limit then some s else none

/-- Host-visible side effects performed through `neon_runtime` calls. -/
inductive HostEffect where
  | printLine (s : String) : HostEffect
  | newString (s : String) : HostEffect
  | newError (s : String) : HostEffect
  | newTypeError (s : String) : HostEffect
  | newRangeError (s : String) : HostEffect
  | throwError (s : String) : HostEffect
deriving DecidableEq, Repr

/-- A panic payload as inspected by `convert_panics`: a `String`, a
`&str`, or any other (downcast-opaque) payload. -/
inductive PanicPayload where
  | ofString (s : String) : PanicPayload
  | ofStr (s : String) : PanicPayload
  | other : PanicPayload
deriving DecidableEq, Repr

/-- The message `convert_panics` builds from a caught payload
(`src/types/error.rs`, lines 151–157). -/
def panicMessage : PanicPayload → String
  | .ofString s => "internal error in Neon module: " ++ s
  | .ofStr s => "internal error in Neon module: " ++ s
  | .other => "internal error in Neon module"

/-- What `catch_unwind(move || f(cx))` observes: the closure either
returned a `NeonResult` or panicked with a payload. -/
inductive CallOutcome (T : Type) where
  | returned (r : Except Throw T) : CallOutcome T
  | panicked (p : PanicPayload) : CallOutcome T

/-- `convert_panics` from `src/types/error.rs` (napi branch): on a normal
return it passes the result through; on a caught panic it builds the
message, prints it, truncates it, creates a host string and a generic
error object carrying it, throws that error, and returns `Err(Throw)`. -/
def convert_panics (T : Type) (limit : Nat) :
    CallOutcome T → Except Throw T × List HostEffect
  | .returned r => (r, [])
  | .panicked p =>
    let msg := panicMessage p
    let t := truncateUtf8 limit msg
    (.error .mk, [.printLine msg, .newString t, .newError t, .throwError t])

/-- `JsError::error` from `src/types/error.rs` (napi branch): if the
message has no small representation, return `Err(Throw)` early with no
host effects; otherwise create the host string and the `Error` object. -/
def JsError.error (limit : Nat) (msg : String) :
    Except Throw Unit × List HostEffect :=
  match intoSmall limit msg with
  | none => (.error .mk, [])
  | some small => (.ok (), [.newString small, .newError small])

/-- `JsError::type_error` from `src/types/error.rs` (napi branch). -/
def JsError.typeError (limit : Nat) (msg : String) :
    Except Throw Unit × List HostEffect :=
  match intoSmall limit msg with
  | none => (.error .mk, [])
  | some small => (.ok (), [.newString small, .newTypeError small])

/-- `JsError::range_error` from `src/types/error.rs` (napi branch). -/
def JsError.rangeError (limit : Nat) (msg : String) :
    Except Throw Unit × List HostEffect :=
  match intoSmall limit msg with
  | none => (.error .mk, [])
  | some small => (.ok (), [.newString small, .newRangeError small])

/-! ### Helper lemmas about the ledger operations -/

theorem Ledger.update_same (l : Ledger) (a : Addr) (s : LoanState) :
    (l.update a s) a = s := by
  simp [Ledger.update]

theorem Ledger.update_other (l : Ledger) (a x : Addr) (s : LoanState)
    (h : x ≠ a) : (l.update a s) x = l x := by
  simp [Ledger.update, h]

theorem Ledger.tryBorrow_unborrowed (l : Ledger) (a : Addr)
    (h : l a = .unborrowed) :
    l.tryBorrow a = (none, l.update a (.shared 1)) := by
  simp [Ledger.tryBorrow, h]

theorem Ledger.tryBorrow_shared (l : Ledger) (a : Addr) (n : Nat)
    (h : l a = .shared n) :
    l.tryBorrow a = (none, l.update a (.shared (n + 1))) := by
  simp [Ledger.tryBorrow, h]

theorem Ledger.tryBorrow_exclusive (l : Ledger) (a : Addr)
    (h : l a = .exclusive) :
    l.tryBorrow a = (some (.mutating a), l) := by
  simp [Ledger.tryBorrow, h]

theorem Ledger.tryBorrowMut_unborrowed (l : Ledger) (a : Addr)
    (h : l a = .unborrowed) :
    l.tryBorrowMut a = (none, l.update a .exclusive) := by
  simp [Ledger.tryBorrowMut, h]

theorem Ledger.tryBorrowMut_shared (l : Ledger) (a : Addr) (n : Nat)
    (h : l a = .shared n) :
    l.tryBorrowMut a = (some (.frozen a), l) := by
  simp [Ledger.tryBorrowMut, h]

theorem Ledger.tryBorrowMut_exclusive (l : Ledger) (a : Addr)
    (h : l a = .exclusive) :
    l.tryBorrowMut a = (some (.frozen a), l) := by
  simp [Ledger.tryBorrowMut, h]

theorem Ledger.settle_shared_one (l : Ledger) (a : Addr)
    (h : l a = .shared 1) : l.settle a = l.update a .unborrowed := by
  simp [Ledger.settle, h]

theorem Ledger.settle_shared_more (l : Ledger) (a : Addr) (n : Nat)
    (h : l a = .shared (n + 2)) :
    l.settle a = l.update a (.shared (n + 1)) := by
  simp [Ledger.settle, h]

theorem Ledger.settle_unborrowed (l : Ledger) (a : Addr)
    (h : l a = .unborrowed) : l.settle a = l := by
  simp [Ledger.settle, h]

theorem Ledger.settle_exclusive (l : Ledger) (a : Addr)
    (h : l a = .exclusive) : l.settle a = l := by
  simp [Ledger.settle, h]

theorem Ledger.settleMut_exclusive (l : Ledger) (a : Addr)
    (h : l a = .exclusive) : l.settleMut a = l.update a .unborrowed := by
  simp [Ledger.settleMut, h]

theorem Ref.refNew_unborrowed (l : Ledger) (a : Addr)
    (h : l a = .unborrowed) :
    Ref.new l a = (.ok ⟨a⟩, l.update a (.shared 1)) := by
  simp [Ref.new, Ledger.tryBorrow_unborrowed l a h]

theorem Ref.refNew_shared (l : Ledger) (a : Addr) (n : Nat)
    (h : l a = .shared n) :
    Ref.new l a = (.ok ⟨a⟩, l.update a (.shared (n + 1))) := by
  simp [Ref.new, Ledger.tryBorrow_shared l a n h]

theorem Ref.refNew_exclusive (l : Ledger) (a : Addr)
    (h : l a = .exclusive) :
    Ref.new l a = (.error (.mutating a), l) := by
  simp [Ref.new, Ledger.tryBorrow_exclusive l a h]

theorem RefMut.refMutNew_unborrowed (l : Ledger) (a : Addr)
    (h : l a = .unborrowed) :
    RefMut.new l a = (.ok ⟨a⟩, l.update a .exclusive) := by
  simp [RefMut.new, Ledger.tryBorrowMut_unborrowed l a h]

theorem RefMut.refMutNew_shared (l : Ledger) (a : Addr) (n : Nat)
    (h : l a = .shared n) :
    RefMut.new l a = (.error (.frozen a), l) := by
  simp [RefMut.new, Ledger.tryBorrowMut_shared l a n h]

theorem RefMut.refMutNew_exclusive (l : Ledger) (a : Addr)
    (h : l a = .exclusive) :
    RefMut.new l a = (.error (.frozen a), l) := by
  simp [RefMut.new, Ledger.tryBorrowMut_exclusive l a h]

/-! ### Claims -/

/-- Claim C1: for every address `a`, a shared-loan request (`Ref::new`
forwarding to `register_shared`) succeeds when the ledger state of `a` is
`Unborrowed` or `Shared(n)`, transitioning it to `Shared(n+1)` (with
`Unborrowed` read as a count of zero); when the state of `a` is
`Exclusive` it fails with `LoanError::Mutating` and leaves the whole
ledger — in particular the state of `a` — unchanged. -/
theorem claim_register_shared (l : Ledger) (a : Addr) :
    (l a = .unborrowed →
      Ref.new l a = (.ok ⟨a⟩, l.update a (.shared 1)))
    ∧ (∀ n, l a = .shared n →
      Ref.new l a = (.ok ⟨a⟩, l.update a (.shared (n + 1))))
    ∧ (l a = .exclusive →
      Ref.new l a = (.error (.mutating a), l)) :=
  ⟨fun h => Ref.refNew_unborrowed l a h,
   fun n h => Ref.refNew_shared l a n h,
   fun h => Ref.refNew_exclusive l a h⟩

/-- Witness for C1: at address 0 of the empty ledger a shared loan is
granted, and at address 0 of an exclusively-held ledger it is refused
with `Mutating` and no state change. -/
theorem claim_register_shared_witness :
    Ref.new Ledger.empty 0 = (.ok ⟨0⟩, Ledger.empty.update 0 (.shared 1))
    ∧ Ref.new (Ledger.empty.update 0 .exclusive) 0
      = (.error (.mutating 0), Ledger.empty.update 0 .exclusive) :=
  ⟨(claim_register_shared Ledger.empty 0).1 rfl,
   (claim_register_shared (Ledger.empty.update 0 .exclusive) 0).2.2 rfl⟩

/-- Claim C2: for every address `a`, an exclusive-loan request
(`RefMut::new` forwarding to `register_exclusive`) succeeds if and only
if the ledger state of `a` is `Unborrowed` (transitioning it to
`Exclusive`); when the state of `a` is `Shared(n)` or `Exclusive` it
fails with `LoanError::Frozen` and leaves the ledger unchanged. -/
theorem claim_register_exclusive (l : Ledger) (a : Addr) :
    ((∃ g, (RefMut.new l a).1 = .ok g) ↔ l a = .unborrowed)
    ∧ (l a = .unborrowed →
      RefMut.new l a = (.ok ⟨a⟩, l.update a .exclusive))
    ∧ (∀ n, l a = .shared n →
      RefMut.new l a = (.error (.frozen a), l))
    ∧ (l a = .exclusive →
      RefMut.new l a = (.error (.frozen a), l)) := by
  refine ⟨⟨?_, ?_⟩, ?_, ?_, ?_⟩
  · rintro ⟨g, hg⟩
    cases h : l a with
    | unborrowed => rfl
    | shared n => rw [RefMut.refMutNew_shared l a n h] at hg; exact absurd hg (by simp)
    | exclusive => rw [RefMut.refMutNew_exclusive l a h] at hg; exact absurd hg (by simp)
  · intro h
    exact ⟨⟨a⟩, by rw [RefMut.refMutNew_unborrowed l a h]⟩
  · exact fun h => RefMut.refMutNew_unborrowed l a h
  · exact fun n h => RefMut.refMutNew_shared l a n h
  · exact fun h => RefMut.refMutNew_exclusive l a h

/-- Witness for C2: at address 0 of the empty ledger an exclusive loan
is granted; against a single shared loan it is refused with `Frozen`
and no state change. -/
theorem claim_register_exclusive_witness :
    RefMut.new Ledger.empty 0 = (.ok ⟨0⟩, Ledger.empty.update 0 .exclusive)
    ∧ RefMut.new (Ledger.empty.update 0 (.shared 1)) 0
      = (.error (.frozen 0), Ledger.empty.update 0 (.shared 1)) :=
  ⟨(claim_register_exclusive Ledger.empty 0).2.1 rfl,
   (claim_register_exclusive (Ledger.empty.update 0 (.shared 1)) 0).2.2.1 1 rfl⟩

/-- Claim C3: whenever guard construction (`Ref::new` or `RefMut::new`)
fails, it returns the loan error and the post-call ledger equals the
pre-call ledger as a whole function: the entry of the requested address
and the entries of all other addresses are untouched. -/
theorem claim_failure_atomic (l : Ledger) (a : Addr) :
    (∀ e, (Ref.new l a).1 = .error e → (Ref.new l a).2 = l)
    ∧ (∀ e, (RefMut.new l a).1 = .error e → (RefMut.new l a).2 = l) := by
  constructor
  · intro e he
    cases h : l a with
    | unborrowed => rw [Ref.refNew_unborrowed l a h] at he; exact absurd he (by simp)
    | shared n => rw [Ref.refNew_shared l a n h] at he; exact absurd he (by simp)
    | exclusive => rw [Ref.refNew_exclusive l a h]
  · intro e he
    cases h : l a with
    | unborrowed => rw [RefMut.refMutNew_unborrowed l a h] at he; exact absurd he (by simp)
    | shared n => rw [RefMut.refMutNew_shared l a n h]
    | exclusive => rw [RefMut.refMutNew_exclusive l a h]

/-- Witness for C3: a failed shared request against an exclusive holder
and a failed exclusive request against a shared holder both leave their
ledgers unchanged. -/
theorem claim_failure_atomic_witness :
    (Ref.new (Ledger.empty.update 0 .exclusive) 0).2
      = Ledger.empty.update 0 .exclusive
    ∧ (RefMut.new (Ledger.empty.update 0 (.shared 1)) 0).2
      = Ledger.empty.update 0 (.shared 1) :=
  ⟨(claim_failure_atomic (Ledger.empty.update 0 .exclusive) 0).1
      (.mutating 0) (by rw [Ref.refNew_exclusive _ 0 rfl]),
   (claim_failure_atomic (Ledger.empty.update 0 (.shared 1)) 0).2
      (.frozen 0) (by rw [RefMut.refMutNew_shared _ 0 1 rfl])⟩

/-- Claim C4: releasing a guard moves the state of its address
monotonically toward `Unborrowed`: `Ref::drop` (release_shared) takes
`Shared(n+2)` to `Shared(n+1)` and `Shared(1)` to `Unborrowed`, and
`RefMut::drop` (release_exclusive) takes `Exclusive` to `Unborrowed`.
The count is a natural number, so it cannot go below zero; moreover a
release never produces the ill-formed count `Shared(0)` from a
well-formed entry. -/
theorem claim_release_monotone (l : Ledger) (a : Addr) :
    (∀ n, l a = .shared (n + 2) →
      Ref.drop l ⟨a⟩ = l.update a (.shared (n + 1)))
    ∧ (l a = .shared 1 → Ref.drop l ⟨a⟩ = l.update a .unborrowed)
    ∧ (l a = .exclusive → RefMut.drop l ⟨a⟩ = l.update a .unborrowed)
    ∧ (l a ≠ .shared 0 → (Ref.drop l ⟨a⟩) a ≠ .shared 0)
    ∧ (l a ≠ .shared 0 → (RefMut.drop l ⟨a⟩) a ≠ .shared 0) := by
  refine ⟨?_, ?_, ?_, ?_, ?_⟩
  · intro n h
    show l.settle a = _
    rw [Ledger.settle_shared_more l a n h]
  · intro h
    show l.settle a = _
    rw [Ledger.settle_shared_one l a h]
  · intro h
    show l.settleMut a = _
    rw [Ledger.settleMut_exclusive l a h]
  · intro hwf
    show (l.settle a) a ≠ .shared 0
    cases h : l a with
    | unborrowed => rw [Ledger.settle_unborrowed l a h, h]; simp
    | exclusive => rw [Ledger.settle_exclusive l a h, h]; simp
    | shared n =>
      match n, h with
      | 0, h => exact absurd h hwf
      | 1, h => rw [Ledger.settle_shared_one l a h, Ledger.update_same]; simp
      | (m + 2), h =>
        rw [Ledger.settle_shared_more l a m h, Ledger.update_same]; simp
  · intro hwf
    show (l.settleMut a) a ≠ .shared 0
    cases h : l a with
    | unborrowed => simp [Ledger.settleMut, h]
    | shared n =>
      have hkeep : l.settleMut a = l := by simp [Ledger.settleMut, h]
      rw [hkeep, h]
      intro hc
      exact hwf (h.trans hc)
    | exclusive =>
      rw [Ledger.settleMut_exclusive l a h, Ledger.update_same]; simp

/-- Witness for C4: dropping the last shared guard on address 0 returns
the entry to `Unborrowed`, and dropping an exclusive guard does too. -/
theorem claim_release_monotone_witness :
    Ref.drop (Ledger.empty.update 0 (.shared 1)) ⟨0⟩
      = (Ledger.empty.update 0 (.shared 1)).update 0 .unborrowed
    ∧ RefMut.drop (Ledger.empty.update 0 .exclusive) ⟨0⟩
      = (Ledger.empty.update 0 .exclusive).update 0 .unborrowed :=
  ⟨(claim_release_monotone (Ledger.empty.update 0 (.shared 1)) 0).2.1 rfl,
   (claim_release_monotone (Ledger.empty.update 0 .exclusive) 0).2.2.1 rfl⟩

theorem Ledger.update_wf (l : Ledger) (a₀ : Addr) (s : LoanState)
    (h : ∀ a, l a ≠ .shared 0) (hs : s ≠ .shared 0) :
    ∀ a, (l.update a₀ s) a ≠ .shared 0 := by
  intro a
  by_cases hEq : a = a₀
  · rw [hEq, Ledger.update_same]; exact hs
  · rw [Ledger.update_other l a₀ a s hEq]; exact h a

/-- One register/release step keeps every per-address count positive:
no operation can drive an entry to the ill-formed `Shared(0)`. -/
theorem Ledger.step_wf (l : Ledger) (op : LedgerOp)
    (h : ∀ a, l a ≠ .shared 0) : ∀ a, (l.step op) a ≠ .shared 0 := by
  cases op with
  | regShared a₀ =>
    show ∀ a, (l.tryBorrow a₀).2 a ≠ .shared 0
    cases hl : l a₀ with
    | unborrowed =>
      rw [Ledger.tryBorrow_unborrowed l a₀ hl]
      exact Ledger.update_wf l a₀ _ h (by simp)
    | shared n =>
      rw [Ledger.tryBorrow_shared l a₀ n hl]
      exact Ledger.update_wf l a₀ _ h (by simp)
    | exclusive =>
      rw [Ledger.tryBorrow_exclusive l a₀ hl]
      exact h
  | regExclusive a₀ =>
    show ∀ a, (l.tryBorrowMut a₀).2 a ≠ .shared 0
    cases hl : l a₀ with
    | unborrowed =>
      rw [Ledger.tryBorrowMut_unborrowed l a₀ hl]
      exact Ledger.update_wf l a₀ _ h (by simp)
    | shared n =>
      rw [Ledger.tryBorrowMut_shared l a₀ n hl]
      exact h
    | exclusive =>
      rw [Ledger.tryBorrowMut_exclusive l a₀ hl]
      exact h
  | relShared a₀ =>
    show ∀ a, (l.settle a₀) a ≠ .shared 0
    cases hl : l a₀ with
    | unborrowed => rw [Ledger.settle_unborrowed l a₀ hl]; exact h
    | exclusive => rw [Ledger.settle_exclusive l a₀ hl]; exact h
    | shared n =>
      match n, hl with
      | 0, hl => exact absurd hl (h a₀)
      | 1, hl =>
        rw [Ledger.settle_shared_one l a₀ hl]
        exact Ledger.update_wf l a₀ _ h (by simp)
      | (m + 2), hl =>
        rw [Ledger.settle_shared_more l a₀ m hl]
        exact Ledger.update_wf l a₀ _ h (by simp)
  | relExclusive a₀ =>
    show ∀ a, (l.settleMut a₀) a ≠ .shared 0
    cases hl : l a₀ with
    | unborrowed => simp only [Ledger.settleMut, hl]; exact h
    | shared n => simp only [Ledger.settleMut, hl]; exact h
    | exclusive =>
      rw [Ledger.settleMut_exclusive l a₀ hl]
      exact Ledger.update_wf l a₀ _ h (by simp)

theorem Ledger.run_wf (ops : List LedgerOp) (l : Ledger)
    (h : ∀ a, l a ≠ .shared 0) : ∀ a, (l.run ops) a ≠ .shared 0 := by
  induction ops generalizing l with
  | nil => exact h
  | cons op ops ih => exact ih (l.step op) (Ledger.step_wf l op h)

/-- Claim C5: in every ledger state reachable from the empty ledger by
any sequence of register and release operations, each address is in
exactly one of the states `Unborrowed`, `Shared(n)` with n ≥ 1, or
`Exclusive`.  The three alternatives are distinct constructors of
`LoanState`, so no address is simultaneously `Shared` and `Exclusive`,
and an `Exclusive` entry carries no shared count. -/
theorem claim_reachable_classified (ops : List LedgerOp) (a : Addr) :
    (Ledger.run Ledger.empty ops) a = .unborrowed
    ∨ (∃ n, 1 ≤ n ∧ (Ledger.run Ledger.empty ops) a = .shared n)
    ∨ (Ledger.run Ledger.empty ops) a = .exclusive := by
  have hwf := Ledger.run_wf ops Ledger.empty (fun _ => by simp [Ledger.empty]) a
  cases hs : (Ledger.run Ledger.empty ops) a with
  | unborrowed => exact Or.inl rfl
  | exclusive => exact Or.inr (Or.inr rfl)
  | shared n =>
    refine Or.inr (Or.inl ⟨n, ?_, rfl⟩)
    cases n with
    | zero => exact absurd hs hwf
    | succ m => exact Nat.succ_le_succ (Nat.zero_le m)

/-- Claim C9: round trips on one address.  Scenario 1: after an
exclusive guard is granted on the empty ledger, a shared request fails
with `Mutating` and leaves the ledger unchanged; after dropping the
exclusive guard the shared request succeeds.  Scenario 2: two shared
guards are granted in sequence; an exclusive request then fails with
`Frozen` and changes nothing, still fails after dropping only the first
shared guard, and succeeds after dropping both. -/
theorem claim_scenarios (a : Addr) :
    ((RefMut.new Ledger.empty a).1 = .ok ⟨a⟩
      ∧ (Ref.new (RefMut.new Ledger.empty a).2 a).1 = .error (.mutating a)
      ∧ (Ref.new (RefMut.new Ledger.empty a).2 a).2
          = (RefMut.new Ledger.empty a).2
      ∧ (Ref.new (RefMut.drop (RefMut.new Ledger.empty a).2 ⟨a⟩) a).1
          = .ok ⟨a⟩)
    ∧ ((Ref.new Ledger.empty a).1 = .ok ⟨a⟩
      ∧ (Ref.new (Ref.new Ledger.empty a).2 a).1 = .ok ⟨a⟩
      ∧ (RefMut.new (Ref.new (Ref.new Ledger.empty a).2 a).2 a).1
          = .error (.frozen a)
      ∧ (RefMut.new (Ref.new (Ref.new Ledger.empty a).2 a).2 a).2
          = (Ref.new (Ref.new Ledger.empty a).2 a).2
      ∧ (RefMut.new
          (Ref.drop (Ref.new (Ref.new Ledger.empty a).2 a).2 ⟨a⟩) a).1
          = .error (.frozen a)
      ∧ (RefMut.new
          (Ref.drop (Ref.drop (Ref.new (Ref.new Ledger.empty a).2 a).2 ⟨a⟩)
            ⟨a⟩) a).1
          = .ok ⟨a⟩) := by
  have e0 : Ledger.empty a = .unborrowed := rfl
  constructor
  · rw [RefMut.refMutNew_unborrowed Ledger.empty a e0]
    have h1 : (Ledger.empty.update a .exclusive) a = .exclusive :=
      Ledger.update_same _ a _
    rw [Ref.refNew_exclusive _ a h1]
    show _ ∧ _ ∧ _ ∧ (Ref.new ((Ledger.empty.update a .exclusive).settleMut a) a).1 = _
    rw [Ledger.settleMut_exclusive _ a h1]
    have h2 : ((Ledger.empty.update a .exclusive).update a .unborrowed) a
        = .unborrowed := Ledger.update_same _ a _
    rw [Ref.refNew_unborrowed _ a h2]
    exact ⟨rfl, rfl, rfl, rfl⟩
  · rw [Ref.refNew_unborrowed Ledger.empty a e0]
    have h1 : (Ledger.empty.update a (.shared 1)) a = .shared 1 :=
      Ledger.update_same _ a _
    rw [Ref.refNew_shared _ a 1 h1]
    have h2 : ((Ledger.empty.update a (.shared 1)).update a (.shared 2)) a
        = .shared 2 := Ledger.update_same _ a _
    rw [RefMut.refMutNew_shared _ a 2 h2]
    show _ ∧ _ ∧ _ ∧ _ ∧
      (RefMut.new (Ledger.settle _ a) a).1 = _ ∧
      (RefMut.new (Ledger.settle (Ledger.settle _ a) a) a).1 = _
    rw [Ledger.settle_shared_more _ a 0 h2]
    have h3 : (((Ledger.empty.update a (.shared 1)).update a
        (.shared 2)).update a (.shared 1)) a = .shared 1 :=
      Ledger.update_same _ a _
    rw [RefMut.refMutNew_shared _ a 1 h3, Ledger.settle_shared_one _ a h3]
    have h4 : ((((Ledger.empty.update a (.shared 1)).update a
        (.shared 2)).update a (.shared 1)).update a .unborrowed) a
        = .unborrowed := Ledger.update_same _ a _
    rw [RefMut.refMutNew_unborrowed _ a h4]
    exact ⟨rfl, rfl, rfl, rfl, rfl, rfl⟩

/-- Truncation respects its byte budget. -/
theorem utf8Len_takeUtf8Bytes (limit : Nat) (cs : List Char) :
    utf8Len (takeUtf8Bytes limit cs) ≤ limit := by
  induction cs generalizing limit with
  | nil => simp [takeUtf8Bytes, utf8Len]
  | cons c cs ih =>
    by_cases h : c.utf8Size ≤ limit
    · have hrest := ih (limit - c.utf8Size)
      simp only [takeUtf8Bytes, h, if_true, utf8Len]
      omega
    · simp [takeUtf8Bytes, h, utf8Len]

/-- Claim C7: `convert_panics` catches the panic before it crosses into
the host; the message it builds carries the internal-error marker and
the payload text for `String` and `&str` payloads and only the generic
marker for an opaque payload; the message handed to the host is
truncated within the host string limit; a generic error object carrying
it is thrown; and the wrapper returns `Err(Throw)` instead of
continuing to unwind.  Normal returns pass through untouched. -/
theorem claim_convert_panics (T : Type) (limit : Nat) (p : PanicPayload) :
    (convert_panics T limit (.panicked p)).1 = .error .mk
    ∧ (convert_panics T limit (.panicked p)).2 =
        [.printLine (panicMessage p),
         .newString (truncateUtf8 limit (panicMessage p)),
         .newError (truncateUtf8 limit (panicMessage p)),
         .throwError (truncateUtf8 limit (panicMessage p))]
    ∧ (∀ s, panicMessage (.ofString s)
        = "internal error in Neon module: " ++ s)
    ∧ (∀ s, panicMessage (.ofStr s)
        = "internal error in Neon module: " ++ s)
    ∧ panicMessage .other = "internal error in Neon module"
    ∧ utf8Len (truncateUtf8 limit (panicMessage p)).data ≤ limit
    ∧ (∀ r, convert_panics T limit (.returned r) = (r, [])) :=
  ⟨rfl, rfl, fun _ => rfl, fun _ => rfl, rfl,
   utf8Len_takeUtf8Bytes limit (panicMessage p).data,
   fun _ => rfl⟩

/-- Claim C8: the panicking variants `borrow` and `borrow_mut` panic
exactly when `try_borrow` / `try_borrow_mut` return a `LoanError`, the
panic message being the error's display text, and otherwise return the
very guard the `try_` variant produced. -/
theorem claim_borrow_panics (G : Type) (t : Except LoanError G) :
    ((∃ e, t = .error e) ↔ ∃ m, Borrow.borrow G t = .panicked m)
    ∧ (∀ e, t = .error e → Borrow.borrow G t = .panicked e.display)
    ∧ (∀ g, t = .ok g → Borrow.borrow G t = .ok g)
    ∧ (∀ e, t = .error e → BorrowMut.borrowMut G t = .panicked e.display)
    ∧ (∀ g, t = .ok g → BorrowMut.borrowMut G t = .ok g) := by
  refine ⟨⟨?_, ?_⟩, ?_, ?_, ?_, ?_⟩
  · rintro ⟨e, rfl⟩
    exact ⟨e.display, rfl⟩
  · rintro ⟨m, hm⟩
    cases t with
    | ok g => exact absurd hm (by simp [Borrow.borrow])
    | error e => exact ⟨e, rfl⟩
  · rintro e rfl; rfl
  · rintro g rfl; rfl
  · rintro e rfl; rfl
  · rintro g rfl; rfl

/-- Witness for C8: a conflicting shared request on a mutably-held
address panics with the `Mutating` display text; a granted request
returns its guard unchanged. -/
theorem claim_borrow_panics_witness :
    Borrow.borrow Ref (.error (.mutating 0))
      = .panicked (LoanError.display (.mutating 0))
    ∧ Borrow.borrow Ref (.ok ⟨0⟩) = .ok ⟨0⟩
    ∧ BorrowMut.borrowMut RefMut (.error (.frozen 0))
      = .panicked (LoanError.display (.frozen 0)) :=
  ⟨(claim_borrow_panics Ref (.error (.mutating 0))).2.1 (.mutating 0) rfl,
   (claim_borrow_panics Ref (.ok ⟨0⟩)).2.2.1 ⟨0⟩ rfl,
   (claim_borrow_panics RefMut (.error (.frozen 0))).2.2.2.1 (.frozen 0) rfl⟩

/-- Claim C10: under the napi runtime, for every message whose UTF-8
encoding exceeds the small-string size limit, `JsError::error`,
`JsError::type_error` and `JsError::range_error` return `Err(Throw)`
early, performing no host effect: no JavaScript string or error object
is constructed and nothing is thrown. -/
theorem claim_jsError_oversized (limit : Nat) (msg : String)
    (h : limit < utf8Len msg.data) :
    JsError.error limit msg = (.error .mk, [])
    ∧ JsError.typeError limit msg = (.error .mk, [])
    ∧ JsError.rangeError limit msg = (.error .mk, []) := by
  have hs : intoSmall limit msg = none := by
    simp only [intoSmall, if_neg (by omega : ¬ utf8Len msg.data ≤ limit)]
  refine ⟨?_, ?_, ?_⟩ <;> simp only [JsError.error, JsError.typeError,
    JsError.rangeError, hs]

/-- Witness for C10: with a one-byte budget of zero, the one-byte
message `"a"` exceeds the limit and all three constructors return the
early throw with no host effects. -/
theorem claim_jsError_oversized_witness :
    JsError.error 0 "a" = (.error .mk, [])
    ∧ JsError.typeError 0 "a" = (.error .mk, [])
    ∧ JsError.rangeError 0 "a" = (.error .mk, []) :=
  claim_jsError_oversized 0 "a" (by decide)

end Neon
